import Mathlib

/-!
Verification development for the LinkedIn stealth-automation core.

The Python modules under `linkedin_automation/core` (browser_manager,
linkedin_auth, profile_handler, message_handler) and the session-close API
endpoint are shallowly embedded here.  The browser is modelled as a fake
driver: a `Page` reports, per locator, whether the element is present,
whether a click or a type on it succeeds, and its text; a `World` maps a
URL to the page reached by navigating there.  Every embedded operation
also emits a trace of driver calls (`Ev`), so call-count properties
("no click is ever issued on this path") are provable.
-/

/-- Selenium `By` strategies used by the source selector tables. -/
inductive ByStrat where
  | id
  | nameAttr
  | cssSelector
  | xpath
  | tagName
deriving DecidableEq, BEq

/-- A locator: a `(By.METHOD, "selector")` pair from the source. -/
structure Locator where
  strat : ByStrat
  sel : String
deriving DecidableEq, BEq

/-- Static page evidence reported by the fake driver. -/
structure Page where
  visible : Locator → Bool
  clickOk : Locator → Bool
  typeOk : Locator → Bool
  textOf : Locator → String

/-- The live browser: its current URL, the page evidence there, and
whether tearing the process down (`driver.quit()`) succeeds or raises. -/
structure Driver where
  url : String
  page : Page
  quitOk : Bool

/-- The environment: whether navigation to a URL succeeds, and which page
evidence the browser reports after navigating there. -/
structure World where
  navOk : String → Bool
  pageAt : String → Page

/-- `BrowserManager` state: optional driver handle, session id,
logged-in flag, and the stored last-known URL. -/
structure BM where
  driver : Option Driver
  session_id : Option String
  is_logged_in : Bool
  current_url : String

/-- `BrowserManager.__init__`: no driver, no session id, not logged in. -/
def BM.init : BM :=
  { driver := none, session_id := none, is_logged_in := false, current_url := "" }

/-- Driver calls recorded by the embedded operations. -/
inductive Ev where
  | wait (l : Locator)
  | click (l : Locator)
  | typeText (l : Locator) (s : String)
  | nav (u : String)
  | readText (l : Locator)

/-- True for the calls that interact with the page (click or type). -/
def Ev.isInteraction : Ev → Bool
  | .click _ => true
  | .typeText _ _ => true
  | _ => false

/-- A trace contains no click and no type call. -/
def noInteraction (tr : List Ev) : Bool :=
  tr.all (fun e => !e.isInteraction)

/-- A Python return value that is either `None` or a `bool`
(`smart_click` / `smart_type` can fall off the end of the function). -/
inductive PyRet where
  | noneVal
  | boolVal (b : Bool)
deriving DecidableEq, BEq

/-- Python truthiness of a `PyRet` (`None` is falsy). -/
def PyRet.truthy : PyRet → Bool
  | .noneVal => false
  | .boolVal b => b

/-- `needle` is a leading segment of `hay` (character lists). -/
def listStartsWith : List Char → List Char → Bool
  | [], _ => true
  | _ :: _, [] => false
  | c :: cs, h :: hs => c == h && listStartsWith cs hs

/-- `needle` occurs contiguously somewhere in `hay` (character lists). -/
def listHasSub (needle : List Char) : List Char → Bool
  | [] => needle.isEmpty
  | h :: hs => listStartsWith needle (h :: hs) || listHasSub needle hs

/-- Python substring containment: `needle in hay`. -/
def strContains (hay needle : String) : Bool :=
  listHasSub needle.data hay.data

/-- `BrowserManager.smart_wait` on a live driver: polls for presence of
the locator; true iff the page reports it. -/
def smart_wait (d : Driver) (l : Locator) : Bool × List Ev :=
  (d.page.visible l, [Ev.wait l])

/-- `BrowserManager.smart_click` on a live driver.  If the element is
present, the click is attempted: success returns `True`, a fault during
the click steps is caught and returns `False`.  If the element is not
present within the timeout, control falls off the end of the Python
function, which returns `None`. -/
def smart_click_d (d : Driver) (l : Locator) : PyRet × List Ev :=
  if d.page.visible l then
    (if d.page.clickOk l then PyRet.boolVal true else PyRet.boolVal false,
     [Ev.wait l, Ev.click l])
  else
    (PyRet.noneVal, [Ev.wait l])

/-- `BrowserManager.smart_click` at the manager level: with no driver the
internal wait raises, the `except` catches it and returns `False`. -/
def smart_click (bm : BM) (l : Locator) : PyRet × List Ev :=
  match bm.driver with
  | none => (PyRet.boolVal false, [])
  | some d => smart_click_d d l

/-- `BrowserManager.smart_type` on a live driver: clear then per-character
send; `None` when the element is not found within the timeout. -/
def smart_type_d (d : Driver) (l : Locator) (text : String) : PyRet × List Ev :=
  if d.page.visible l then
    (if d.page.typeOk l then PyRet.boolVal true else PyRet.boolVal false,
     [Ev.wait l, Ev.typeText l text])
  else
    (PyRet.noneVal, [Ev.wait l])

/-- `BrowserManager.smart_type` at the manager level. -/
def smart_type (bm : BM) (l : Locator) (text : String) : PyRet × List Ev :=
  match bm.driver with
  | none => (PyRet.boolVal false, [])
  | some d => smart_type_d d l text

/-- `BrowserManager.navigate_to`: loads the URL and stores it as the
last-known URL on success; false (no exception) on failure. -/
def navigate_to (w : World) (bm : BM) (u : String) : Bool × BM × List Ev :=
  match bm.driver with
  | none => (false, bm, [])
  | some d =>
    if w.navOk u then
      let d2 : Driver := { d with url := u, page := w.pageAt u }
      (true, { bm with driver := some d2, current_url := u }, [Ev.nav u])
    else
      (false, bm, [Ev.nav u])

/-- `BrowserManager.get_current_url`: the live URL, falling back to the
stored last-known URL when the browser is unresponsive. -/
def get_current_url (bm : BM) : String :=
  match bm.driver with
  | some d => d.url
  | none => bm.current_url

/-- `BrowserManager.is_browser_active`. -/
def is_browser_active (bm : BM) : Bool :=
  bm.driver.isSome

/-- `BrowserManager.close_browser`: when a driver handle exists, call
`quit()` and then clear the handle, the session id and the logged-in
flag.  The clears sit inside the `try` after the quit, so when `quit()`
raises the `except` swallows the fault and none of the fields is cleared;
with no handle the function is a no-op. -/
def close_browser (bm : BM) : BM :=
  match bm.driver with
  | some d =>
    if d.quitOk then
      { bm with driver := none, session_id := none, is_logged_in := false }
    else bm
  | none => bm

/-- `BrowserManager.create_stealth_browser`: installs a fresh driver and a
generated session id; the logged-in flag is not touched. -/
def create_stealth_browser (bm : BM) (d : Driver) (sid : String) : BM :=
  { bm with driver := some d, session_id := some sid }

/-- Best-effort profile attributes from `_extract_profile_info`; fields
keep the sentinel value when extraction finds nothing. -/
structure ProfileInfo where
  name : String
  headline : String
  location : String
deriving DecidableEq, BEq

/-- The uniform result dictionary the controller operations return; keys
absent from a given dictionary are `none`. -/
structure Res where
  success : Bool
  message : Option String := none
  error : Option String := none
  error_type : Option String := none
  requires_manual_action : Bool := false
  current_url : Option String := none
  connection_status : Option String := none
  can_message : Option Bool := none
  profile_info : Option ProfileInfo := none
  had_note : Option Bool := none
  profile_url : Option String := none
  method : Option String := none
deriving DecidableEq

/-- `_find_element_with_selectors` (present identically in LinkedInAuth,
ProfileHandler and MessageHandler): probe the candidates in declared
order, return the first present one, `None` when all fail. -/
def find_element_with_selectors (d : Driver) : List Locator → Option Locator × List Ev
  | [] => (none, [])
  | l :: ls =>
    if d.page.visible l then
      (some l, [Ev.wait l])
    else
      let r := find_element_with_selectors d ls
      (r.1, Ev.wait l :: r.2)

/-- LinkedInAuth selector table: email field candidates. -/
def email_input_selectors : List Locator :=
  [⟨.id, "username"⟩,
   ⟨.nameAttr, "session_key"⟩,
   ⟨.cssSelector, "input[name=\x27session_key\x27]"⟩,
   ⟨.cssSelector, "input[autocomplete=\x27username\x27]"⟩]

/-- LinkedInAuth selector table: password field candidates. -/
def password_input_selectors : List Locator :=
  [⟨.id, "password"⟩,
   ⟨.nameAttr, "session_password"⟩,
   ⟨.cssSelector, "input[name=\x27session_password\x27]"⟩,
   ⟨.cssSelector, "input[type=\x27password\x27]"⟩]

/-- LinkedInAuth selector table: login submit button candidates. -/
def login_button_selectors : List Locator :=
  [⟨.cssSelector, "button[type=\x27submit\x27]"⟩,
   ⟨.cssSelector, "button[data-id=\x27sign-in-form__submit-btn\x27]"⟩,
   ⟨.cssSelector, ".btn__primary--large"⟩,
   ⟨.xpath, "//button[contains(text(), \x27Sign in\x27)]"⟩,
   ⟨.xpath, "//button[contains(text(), \x27Sign In\x27)]"⟩]

/-- LinkedInAuth selector table: challenge and verification surfaces. -/
def captcha_challenge_selectors : List Locator :=
  [⟨.cssSelector, ".challenge-page"⟩,
   ⟨.cssSelector, ".captcha-challenge"⟩,
   ⟨.id, "captcha"⟩,
   ⟨.cssSelector, "[data-test-id=\x27challenge-page\x27]"⟩]

/-- LinkedInAuth selector table: inline login error messages. -/
def error_messages_selectors : List Locator :=
  [⟨.cssSelector, ".form__error--floating"⟩,
   ⟨.cssSelector, ".alert--error"⟩,
   ⟨.cssSelector, ".error-message"⟩,
   ⟨.xpath, "//*[contains(@class, \x27error\x27)]"⟩]

/-- Cookie consent banner candidates from `_handle_cookie_banner`. -/
def cookie_selectors : List Locator :=
  [⟨.cssSelector, "button[action-type=\x27ACCEPT\x27]"⟩,
   ⟨.xpath, "//button[contains(text(), \x27Accept\x27)]"⟩,
   ⟨.xpath, "//button[contains(text(), \x27Allow\x27)]"⟩,
   ⟨.cssSelector, ".cookie-consent button"⟩]

/-- Authenticated navigation chrome candidates from `_validate_login`. -/
def nav_selectors : List Locator :=
  [⟨.cssSelector, "nav.global-nav"⟩,
   ⟨.cssSelector, ".global-nav__nav"⟩,
   ⟨.cssSelector, "[data-test-global-nav]"⟩,
   ⟨.xpath, "//nav[contains(@class, \x27global-nav\x27)]"⟩]

/-- Post-login URL path indicators from `_validate_login`. -/
def success_indicators : List String :=
  ["/feed/", "/in/", "/mynetwork/", "/messaging/", "/notifications/"]

/-- Default `LINKEDIN_LOGIN_URL` configuration value. -/
def LINKEDIN_LOGIN_URL : String := "https://www.linkedin.com/login"

/-- Inner loop of `_handle_cookie_banner`: probe the cookie selectors in
order; click the first one present and stop. -/
def cookie_banner_loop (d : Driver) : List Locator → List Ev
  | [] => []
  | l :: ls =>
    if d.page.visible l then
      Ev.wait l :: (smart_click_d d l).2
    else
      Ev.wait l :: cookie_banner_loop d ls

/-- `LinkedInAuth._handle_cookie_banner`: best-effort, failures swallowed. -/
def handle_cookie_banner (bm : BM) : List Ev :=
  match bm.driver with
  | none => []
  | some d => cookie_banner_loop d cookie_selectors

/-- `LinkedInAuth._fill_login_form` on a live driver. -/
def fill_login_form_d (d : Driver) (username password : String) : Res × List Ev :=
  let fe := find_element_with_selectors d email_input_selectors
  match fe.1 with
  | none =>
    ({ success := false, error := some "Could not find email input field",
       error_type := some "element_not_found" }, fe.2)
  | some esel =>
    let t1 := smart_type_d d esel username
    if !t1.1.truthy then
      ({ success := false, error := some "Failed to enter username",
         error_type := some "input_error" }, fe.2 ++ t1.2)
    else
      let fp := find_element_with_selectors d password_input_selectors
      match fp.1 with
      | none =>
        ({ success := false, error := some "Could not find password input field",
           error_type := some "element_not_found" }, fe.2 ++ t1.2 ++ fp.2)
      | some psel =>
        let t2 := smart_type_d d psel password
        if !t2.1.truthy then
          ({ success := false, error := some "Failed to enter password",
             error_type := some "input_error" }, fe.2 ++ t1.2 ++ fp.2 ++ t2.2)
        else
          ({ success := true }, fe.2 ++ t1.2 ++ fp.2 ++ t2.2)

/-- `LinkedInAuth._fill_login_form`: with no driver the element lookup
raises and the handler converts the fault to a form error. -/
def fill_login_form (bm : BM) (username password : String) : Res × List Ev :=
  match bm.driver with
  | none =>
    ({ success := false, error := some "Form filling error",
       error_type := some "form_error" }, [])
  | some d => fill_login_form_d d username password

/-- `LinkedInAuth._submit_login_form` on a live driver. -/
def submit_login_form_d (d : Driver) : Res × List Ev :=
  let fb := find_element_with_selectors d login_button_selectors
  match fb.1 with
  | none =>
    ({ success := false, error := some "Could not find login button",
       error_type := some "element_not_found" }, fb.2)
  | some bsel =>
    let c := smart_click_d d bsel
    if !c.1.truthy then
      ({ success := false, error := some "Failed to click login button",
         error_type := some "click_error" }, fb.2 ++ c.2)
    else
      ({ success := true }, fb.2 ++ c.2)

/-- `LinkedInAuth._submit_login_form` at the manager level. -/
def submit_login_form (bm : BM) : Res × List Ev :=
  match bm.driver with
  | none =>
    ({ success := false, error := some "Form submission error",
       error_type := some "submission_error" }, [])
  | some d => submit_login_form_d d

/-- `LinkedInAuth._validate_login` on a live driver: the fixed-priority
evidence check deciding the login outcome. -/
def validate_login (d : Driver) : Res × List Ev :=
  let cap := find_element_with_selectors d captcha_challenge_selectors
  match cap.1 with
  | some _ =>
    ({ success := false,
       error := some "CAPTCHA challenge detected. Manual intervention required.",
       error_type := some "captcha_challenge",
       requires_manual_action := true }, cap.2)
  | none =>
    let err := find_element_with_selectors d error_messages_selectors
    match err.1 with
    | some esel =>
      ({ success := false,
         error := some ("Login error: " ++ d.page.textOf esel),
         error_type := some "authentication_error" },
       cap.2 ++ err.2 ++ [Ev.readText esel])
    | none =>
      let current_url := d.url
      if success_indicators.any (fun s => strContains current_url s) then
        ({ success := true, message := some "Login successful",
           current_url := some current_url }, cap.2 ++ err.2)
      else
        let nv := find_element_with_selectors d nav_selectors
        match nv.1 with
        | some _ =>
          ({ success := true, message := some "Login successful - navigation found",
             current_url := some current_url }, cap.2 ++ err.2 ++ nv.2)
        | none =>
          if strContains current_url "/login" || strContains current_url "/challenge" then
            ({ success := false, error := some "Still on login page. Check credentials.",
               error_type := some "authentication_error" }, cap.2 ++ err.2 ++ nv.2)
          else
            ({ success := true, message := some "Login appears successful",
               current_url := some current_url }, cap.2 ++ err.2 ++ nv.2)

/-- `LinkedInAuth._validate_login` at the manager level. -/
def validate_login_bm (bm : BM) : Res × List Ev :=
  match bm.driver with
  | none =>
    ({ success := false, error := some "Login validation error",
       error_type := some "validation_error" }, [])
  | some d => validate_login d

/-- `LinkedInAuth.login`: navigate to the login page, dismiss the cookie
banner, fill and submit the form, validate the outcome; on a successful
validation the logged-in flag of the session is set true. -/
def login (w : World) (bm : BM) (username password : String) : Res × BM × List Ev :=
  let n := navigate_to w bm LINKEDIN_LOGIN_URL
  let bm1 := n.2.1
  if !n.1 then
    ({ success := false, error := some "Failed to navigate to LinkedIn login page",
       error_type := some "navigation_error" }, bm1, n.2.2)
  else
    let trC := handle_cookie_banner bm1
    let f := fill_login_form bm1 username password
    if !f.1.success then
      (f.1, bm1, n.2.2 ++ trC ++ f.2)
    else
      let s := submit_login_form bm1
      if !s.1.success then
        (s.1, bm1, n.2.2 ++ trC ++ f.2 ++ s.2)
      else
        let v := validate_login_bm bm1
        let bm2 := if v.1.success then { bm1 with is_logged_in := true } else bm1
        (v.1, bm2, n.2.2 ++ trC ++ f.2 ++ s.2 ++ v.2)

/-- `LinkedInAuth.logout`: navigate to the logout URL; on success the
logged-in flag is cleared. -/
def logout (w : World) (bm : BM) : Res × BM × List Ev :=
  let n := navigate_to w bm "https://www.linkedin.com/m/logout/"
  if n.1 then
    ({ success := true, message := some "Logged out successfully" },
     { n.2.1 with is_logged_in := false }, n.2.2)
  else
    ({ success := false, error := some "Failed to logout" }, n.2.1, n.2.2)

/-- ProfileHandler selector table: direct Connect button candidates. -/
def primary_connect_selectors : List Locator :=
  [⟨.cssSelector, "button[aria-label*=\x27Connect\x27]"⟩,
   ⟨.cssSelector, "button[data-control-name=\x27connect\x27]"⟩,
   ⟨.xpath, "//button[contains(text(), \x27Connect\x27)]"⟩,
   ⟨.xpath, "//button[contains(@aria-label, \x27Connect\x27)]"⟩,
   ⟨.cssSelector, ".pv-s-profile-actions button[data-control-name=\x27connect\x27]"⟩,
   ⟨.cssSelector, ".pv-top-card-v2-ctas button[aria-label*=\x27Connect\x27]"⟩,
   ⟨.cssSelector, ".pvs-profile-actions button[aria-label*=\x27Connect\x27]"⟩]

/-- ProfileHandler selector table: overflow ("More") menu candidates. -/
def dropdown_connect_selectors : List Locator :=
  [⟨.cssSelector, "button[aria-label*=\x27More actions\x27]"⟩,
   ⟨.cssSelector, "button[data-control-name=\x27more-actions\x27]"⟩,
   ⟨.cssSelector, ".pv-s-profile-actions__overflow-toggle"⟩,
   ⟨.xpath, "//button[contains(@aria-label, \x27More\x27)]"⟩]

/-- ProfileHandler selector table: Connect option inside the overflow menu. -/
def dropdown_connect_option_selectors : List Locator :=
  [⟨.xpath, "//div[contains(@class, \x27dropdown\x27)]//button[contains(text(), \x27Connect\x27)]"⟩,
   ⟨.cssSelector, ".artdeco-dropdown__content button[aria-label*=\x27Connect\x27]"⟩,
   ⟨.cssSelector, "[role=\x27menu\x27] button[data-control-name=\x27connect\x27]"⟩]

/-- ProfileHandler selector table: Connected affordance (Message button). -/
def connected_selectors : List Locator :=
  [⟨.cssSelector, "button[aria-label*=\x27Message\x27]"⟩,
   ⟨.cssSelector, "button[data-control-name=\x27message\x27]"⟩,
   ⟨.xpath, "//button[contains(text(), \x27Message\x27)]"⟩,
   ⟨.cssSelector, ".pv-s-profile-actions button[aria-label*=\x27Message\x27]"⟩]

/-- ProfileHandler selector table: Pending affordance. -/
def pending_selectors : List Locator :=
  [⟨.cssSelector, "button[aria-label*=\x27Pending\x27]"⟩,
   ⟨.xpath, "//button[contains(text(), \x27Pending\x27)]"⟩,
   ⟨.cssSelector, "button[data-control-name=\x27pending\x27]"⟩]

/-- ProfileHandler selector table: Follow affordance. -/
def follow_selectors : List Locator :=
  [⟨.cssSelector, "button[aria-label*=\x27Follow\x27]"⟩,
   ⟨.xpath, "//button[contains(text(), \x27Follow\x27)]"⟩,
   ⟨.cssSelector, "button[data-control-name=\x27follow\x27]"⟩]

/-- Profile page structure indicators from `_validate_profile_page`. -/
def profile_indicators : List Locator :=
  [⟨.cssSelector, ".pv-top-card"⟩,
   ⟨.cssSelector, ".pv-text-details__left-panel"⟩,
   ⟨.cssSelector, "[data-section=\x27topCard\x27]"⟩,
   ⟨.cssSelector, ".ph5.pb5"⟩,
   ⟨.xpath, "//h1[contains(@class, \x27text-heading-xlarge\x27)]"⟩]

/-- Name heading candidates from `_extract_profile_info`. -/
def name_selectors : List Locator :=
  [⟨.cssSelector, "h1.text-heading-xlarge"⟩,
   ⟨.cssSelector, ".pv-text-details__left-panel h1"⟩,
   ⟨.cssSelector, ".ph5 h1"⟩]

/-- Headline candidates from `_extract_profile_info`. -/
def headline_selectors : List Locator :=
  [⟨.cssSelector, ".text-body-medium.break-words"⟩,
   ⟨.cssSelector, ".pv-text-details__left-panel .text-body-medium"⟩]

/-- Connection-note field candidates from `_handle_connection_note`. -/
def note_selectors : List Locator :=
  [⟨.cssSelector, "textarea[name=\x27message\x27]"⟩,
   ⟨.cssSelector, "#custom-message"⟩,
   ⟨.cssSelector, "textarea[placeholder*=\x27Add a note\x27]"⟩,
   ⟨.xpath, "//textarea[contains(@placeholder, \x27note\x27)]"⟩]

/-- Send-invite confirmation candidates from `_confirm_connection_request`. -/
def send_invite_selectors : List Locator :=
  [⟨.cssSelector, "button[aria-label*=\x27Send\x27]"⟩,
   ⟨.xpath, "//button[contains(text(), \x27Send\x27)]"⟩,
   ⟨.cssSelector, "button[data-control-name=\x27send-invite\x27]"⟩,
   ⟨.cssSelector, ".artdeco-button--primary[type=\x27submit\x27]"⟩]

/-- Python `str.lower()` as a structural character map. -/
def strLower (s : String) : String :=
  ⟨s.data.map Char.toLower⟩

/-- `ProfileHandler._is_valid_linkedin_profile_url`. -/
def is_valid_linkedin_profile_url (url : String) : Bool :=
  ["linkedin.com/in/", "www.linkedin.com/in/",
   "https://linkedin.com/in/", "https://www.linkedin.com/in/"].any
    (fun p => strContains (strLower url) p)

/-- `ProfileHandler._validate_profile_page` on a live driver. -/
def validate_profile_page (d : Driver) : Res × List Ev :=
  let f := find_element_with_selectors d profile_indicators
  match f.1 with
  | some _ => ({ success := true }, f.2)
  | none =>
    if strContains d.url "/authwall" then
      ({ success := false, error := some "LinkedIn authwall detected - login required",
         error_type := some "auth_required" }, f.2)
    else if strContains d.url "/unavailable" then
      ({ success := false, error := some "Profile unavailable or doesn\x27t exist",
         error_type := some "profile_unavailable" }, f.2)
    else
      ({ success := false, error := some "Could not validate profile page",
         error_type := some "validation_failed" }, f.2)

/-- `ProfileHandler._validate_profile_page` at the manager level. -/
def validate_profile_page_bm (bm : BM) : Res × List Ev :=
  match bm.driver with
  | none =>
    ({ success := false, error := some "Profile validation error",
       error_type := some "validation_error" }, [])
  | some d => validate_profile_page d

/-- `ProfileHandler._extract_profile_info` on a live driver: best-effort
name and headline; every field keeps "Unknown" when nothing is found. -/
def extract_profile_info (d : Driver) : ProfileInfo × List Ev :=
  let nf := find_element_with_selectors d name_selectors
  let nameVal :=
    match nf.1 with
    | some nsel => if (d.page.textOf nsel).trim ≠ "" then (d.page.textOf nsel).trim else "Unknown"
    | none => "Unknown"
  let ntr :=
    match nf.1 with
    | some nsel => nf.2 ++ [Ev.readText nsel]
    | none => nf.2
  let hf := find_element_with_selectors d headline_selectors
  let headlineVal :=
    match hf.1 with
    | some hsel => if (d.page.textOf hsel).trim ≠ "" then (d.page.textOf hsel).trim else "Unknown"
    | none => "Unknown"
  let htr :=
    match hf.1 with
    | some hsel => hf.2 ++ [Ev.readText hsel]
    | none => hf.2
  ({ name := nameVal, headline := headlineVal, location := "Unknown" }, ntr ++ htr)

/-- `ProfileHandler._extract_profile_info` at the manager level: a dead
browser makes the guarded extraction return the defaults. -/
def extract_profile_info_bm (bm : BM) : ProfileInfo × List Ev :=
  match bm.driver with
  | none => ({ name := "Unknown", headline := "Unknown", location := "Unknown" }, [])
  | some d => extract_profile_info d

/-- `ProfileHandler.navigate_to_profile`: URL-shape check, navigation,
page validation, then best-effort info extraction. -/
def navigate_to_profile (w : World) (bm : BM) (profile_url : String) : Res × BM × List Ev :=
  if !is_valid_linkedin_profile_url profile_url then
    ({ success := false, error := some "Invalid LinkedIn profile URL format",
       error_type := some "invalid_url" }, bm, [])
  else
    let n := navigate_to w bm profile_url
    if !n.1 then
      ({ success := false, error := some "Failed to navigate to profile",
         error_type := some "navigation_error" }, n.2.1, n.2.2)
    else
      let bm1 := n.2.1
      let v := validate_profile_page_bm bm1
      if !v.1.success then
        (v.1, bm1, n.2.2 ++ v.2)
      else
        let e := extract_profile_info_bm bm1
        ({ success := true, message := some "Profile loaded successfully",
           profile_info := some e.1,
           current_url := some (get_current_url bm1) }, bm1, n.2.2 ++ v.2 ++ e.2)

/-- Status classification from `ProfileHandler.check_connection_status`:
the if/elif cascade over the page evidence. -/
def classify_connection_status (d : Driver) : String × List Ev :=
  let c := find_element_with_selectors d connected_selectors
  if c.1.isSome then ("connected", c.2)
  else
    let p := find_element_with_selectors d pending_selectors
    if p.1.isSome then ("pending", c.2 ++ p.2)
    else
      let fo := find_element_with_selectors d follow_selectors
      if fo.1.isSome then ("not_connected", c.2 ++ p.2 ++ fo.2)
      else
        let pc := find_element_with_selectors d primary_connect_selectors
        if pc.1.isSome then ("not_connected", c.2 ++ p.2 ++ fo.2 ++ pc.2)
        else
          let dc := find_element_with_selectors d dropdown_connect_selectors
          if dc.1.isSome then ("not_connected", c.2 ++ p.2 ++ fo.2 ++ pc.2 ++ dc.2)
          else ("unknown", c.2 ++ p.2 ++ fo.2 ++ pc.2 ++ dc.2)

/-- The evidence-evaluation half of `check_connection_status`: with a live
driver the classification is wrapped in a success result; a dead browser
makes the guarded cascade fault into a status-check error. -/
def evaluate_connection_status (bm : BM) (profile_url : String) : Res × List Ev :=
  match bm.driver with
  | none =>
    ({ success := false, error := some "Status check error",
       error_type := some "status_check_error" }, [])
  | some d =>
    let c := classify_connection_status d
    ({ success := true, connection_status := some c.1,
       profile_url := some profile_url }, c.2)

/-- `ProfileHandler.check_connection_status`: ensure the browser is on the
profile (navigating if not), then evaluate the page evidence. -/
def check_connection_status (w : World) (bm : BM) (profile_url : String) : Res × BM × List Ev :=
  if strContains (get_current_url bm) profile_url then
    let e := evaluate_connection_status bm profile_url
    (e.1, bm, e.2)
  else
    let nv := navigate_to_profile w bm profile_url
    if !nv.1.success then nv
    else
      let bm1 := nv.2.1
      let e := evaluate_connection_status bm1 profile_url
      (e.1, bm1, nv.2.2 ++ e.2)

/-- `ProfileHandler._find_and_click_connect_button`, overflow-menu half:
open the "More" menu and click the nested Connect option. -/
def connect_dropdown_attempt (d : Driver) : Res × List Ev :=
  let notFound : Res :=
    { success := false, error := some "Could not find Connect button in any location",
      error_type := some "connect_button_not_found" }
  let dd := find_element_with_selectors d dropdown_connect_selectors
  match dd.1 with
  | none => (notFound, dd.2)
  | some sel =>
    let c1 := smart_click_d d sel
    if !c1.1.truthy then (notFound, dd.2 ++ c1.2)
    else
      let opt := find_element_with_selectors d dropdown_connect_option_selectors
      match opt.1 with
      | none => (notFound, dd.2 ++ c1.2 ++ opt.2)
      | some osel =>
        let c2 := smart_click_d d osel
        if c2.1.truthy then
          ({ success := true, method := some "dropdown_button" }, dd.2 ++ c1.2 ++ opt.2 ++ c2.2)
        else
          (notFound, dd.2 ++ c1.2 ++ opt.2 ++ c2.2)

/-- `ProfileHandler._find_and_click_connect_button`: direct button first,
falling back to the overflow menu. -/
def find_and_click_connect_button (bm : BM) : Res × List Ev :=
  match bm.driver with
  | none =>
    ({ success := false, error := some "Connect button error",
       error_type := some "connect_button_error" }, [])
  | some d =>
    let pc := find_element_with_selectors d primary_connect_selectors
    match pc.1 with
    | some sel =>
      let c := smart_click_d d sel
      if c.1.truthy then
        ({ success := true, method := some "primary_button" }, pc.2 ++ c.2)
      else
        let rest := connect_dropdown_attempt d
        (rest.1, pc.2 ++ c.2 ++ rest.2)
    | none =>
      let rest := connect_dropdown_attempt d
      (rest.1, pc.2 ++ rest.2)

/-- `ProfileHandler._handle_connection_note`: type the note if a note
field resolves; no field at all is a success (send without a note). -/
def handle_connection_note (bm : BM) (note : String) : Res × List Ev :=
  match bm.driver with
  | none =>
    ({ success := false, error := some "Note error",
       error_type := some "note_error" }, [])
  | some d =>
    let f := find_element_with_selectors d note_selectors
    match f.1 with
    | some sel =>
      let t := smart_type_d d sel note
      if t.1.truthy then ({ success := true }, f.2 ++ t.2)
      else
        ({ success := false, error := some "Failed to type connection note",
           error_type := some "note_input_error" }, f.2 ++ t.2)
    | none => ({ success := true }, f.2)

/-- `ProfileHandler._confirm_connection_request`: click the final Send
control. -/
def confirm_connection_request (bm : BM) : Res × List Ev :=
  match bm.driver with
  | none =>
    ({ success := false, error := some "Confirmation error",
       error_type := some "confirmation_error" }, [])
  | some d =>
    let f := find_element_with_selectors d send_invite_selectors
    match f.1 with
    | none =>
      ({ success := false, error := some "Could not find Send button",
         error_type := some "send_button_not_found" }, f.2)
    | some sel =>
      let c := smart_click_d d sel
      if c.1.truthy then ({ success := true }, f.2 ++ c.2)
      else
        ({ success := false, error := some "Failed to click Send button",
           error_type := some "send_button_error" }, f.2 ++ c.2)

/-- Body of `ProfileHandler.send_connection_request` after its navigation
guard: classify the status and short-circuit on Connected or Pending, then
click Connect, optionally add the note, and confirm.  `tr0` is the trace
already emitted by the guard. -/
def send_connection_core (w : World) (bm1 : BM) (profile_url : String)
    (note : Option String) (tr0 : List Ev) : Res × BM × List Ev :=
  let st := check_connection_status w bm1 profile_url
  if !st.1.success then (st.1, st.2.1, tr0 ++ st.2.2)
  else
    let bm2 := st.2.1
    let cs := st.1.connection_status.getD ""
    if cs = "connected" then
      ({ success := false, error := some "Already connected to this profile",
         error_type := some "already_connected",
         connection_status := some "connected" }, bm2, tr0 ++ st.2.2)
    else if cs = "pending" then
      ({ success := false, error := some "Connection request already pending",
         error_type := some "request_pending",
         connection_status := some "pending" }, bm2, tr0 ++ st.2.2)
    else
      let fc := find_and_click_connect_button bm2
      if !fc.1.success then (fc.1, bm2, tr0 ++ st.2.2 ++ fc.2)
      else
        let ntr :=
          match note with
          | some n => (handle_connection_note bm2 n).2
          | none => []
        let cf := confirm_connection_request bm2
        if !cf.1.success then (cf.1, bm2, tr0 ++ st.2.2 ++ fc.2 ++ ntr ++ cf.2)
        else
          ({ success := true, message := some "Connection request sent successfully",
             had_note := some note.isSome, profile_url := some profile_url },
           bm2, tr0 ++ st.2.2 ++ fc.2 ++ ntr ++ cf.2)

/-- `ProfileHandler.send_connection_request`: ensure the browser is on the
profile (navigating if not), then run the connect flow. -/
def send_connection_request (w : World) (bm : BM) (profile_url : String)
    (note : Option String) : Res × BM × List Ev :=
  if strContains (get_current_url bm) profile_url then
    send_connection_core w bm profile_url note []
  else
    let nv := navigate_to_profile w bm profile_url
    if !nv.1.success then nv
    else send_connection_core w nv.2.1 profile_url note nv.2.2

/-- MessageHandler selector table: Message button candidates. -/
def message_button_selectors : List Locator :=
  [⟨.cssSelector, "button[aria-label*=\x27Message\x27]"⟩,
   ⟨.cssSelector, "button[data-control-name=\x27message\x27]"⟩,
   ⟨.xpath, "//button[contains(text(), \x27Message\x27)]"⟩,
   ⟨.cssSelector, ".pv-s-profile-actions button[aria-label*=\x27Message\x27]"⟩,
   ⟨.cssSelector, ".pv-top-card-v2-ctas button[aria-label*=\x27Message\x27]"⟩,
   ⟨.cssSelector, ".pvs-profile-actions button[aria-label*=\x27Message\x27]"⟩,
   ⟨.cssSelector, "a[data-control-name=\x27message\x27]"⟩]

/-- MessageHandler selector table: composer input candidates. -/
def message_input_selectors : List Locator :=
  [⟨.cssSelector, "div[data-placeholder=\x27Write a message...\x27]"⟩,
   ⟨.cssSelector, ".msg-form__contenteditable"⟩,
   ⟨.cssSelector, "[data-placeholder*=\x27message\x27]"⟩,
   ⟨.cssSelector, "div[role=\x27textbox\x27]"⟩,
   ⟨.xpath, "//div[@contenteditable=\x27true\x27]"⟩]

/-- MessageHandler selector table: composer send button candidates. -/
def msg_send_button_selectors : List Locator :=
  [⟨.cssSelector, "button[data-control-name=\x27send\x27]"⟩,
   ⟨.cssSelector, "button[type=\x27submit\x27][aria-label*=\x27Send\x27]"⟩,
   ⟨.xpath, "//button[contains(@aria-label, \x27Send\x27)]"⟩,
   ⟨.cssSelector, ".msg-form__send-button"⟩,
   ⟨.cssSelector, "button.artdeco-button--primary"⟩]

/-- MessageHandler selector table: open conversation surface candidates. -/
def message_thread_selectors : List Locator :=
  [⟨.cssSelector, ".msg-thread"⟩,
   ⟨.cssSelector, ".msg-conversation-card"⟩,
   ⟨.cssSelector, "[data-control-name=\x27overlay_conversation_thread\x27]"⟩]

/-- `MessageHandler.can_send_message`, evidence half: resolve a Message
affordance; its presence is the messaging capability. -/
def can_send_message_evidence (bm : BM) (profile_url : String) : Res × List Ev :=
  match bm.driver with
  | none =>
    ({ success := false, error := some "Messaging check error",
       error_type := some "messaging_check_error" }, [])
  | some d =>
    let f := find_element_with_selectors d message_button_selectors
    if f.1.isSome then
      ({ success := true, can_message := some true,
         message := some "Message button found - user is connected",
         profile_url := some profile_url }, f.2)
    else
      ({ success := true, can_message := some false,
         message := some "No Message button found - user might not be connected",
         profile_url := some profile_url }, f.2)

/-- `MessageHandler.can_send_message`: ensure the browser is on the
profile (plain navigation if not), then look for the Message button. -/
def can_send_message (w : World) (bm : BM) (profile_url : String) : Res × BM × List Ev :=
  if strContains (get_current_url bm) profile_url then
    let e := can_send_message_evidence bm profile_url
    (e.1, bm, e.2)
  else
    let n := navigate_to w bm profile_url
    if !n.1 then
      ({ success := false, error := some "Failed to navigate to profile",
         error_type := some "navigation_error" }, n.2.1, n.2.2)
    else
      let e := can_send_message_evidence n.2.1 profile_url
      (e.1, n.2.1, n.2.2 ++ e.2)

/-- `MessageHandler._open_message_interface`: click the Message button and
confirm a conversation surface, with one extended retry window. -/
def open_message_interface (bm : BM) : Res × List Ev :=
  match bm.driver with
  | none =>
    ({ success := false, error := some "Interface opening error",
       error_type := some "interface_error" }, [])
  | some d =>
    let f := find_element_with_selectors d message_button_selectors
    match f.1 with
    | none =>
      ({ success := false, error := some "Could not find Message button",
         error_type := some "message_button_not_found" }, f.2)
    | some sel =>
      let c := smart_click_d d sel
      if !c.1.truthy then
        ({ success := false, error := some "Failed to click Message button",
           error_type := some "message_button_click_error" }, f.2 ++ c.2)
      else
        let t1 := find_element_with_selectors d message_thread_selectors
        if t1.1.isSome then ({ success := true }, f.2 ++ c.2 ++ t1.2)
        else
          let t2 := find_element_with_selectors d message_thread_selectors
          if t2.1.isSome then ({ success := true }, f.2 ++ c.2 ++ t1.2 ++ t2.2)
          else
            ({ success := false, error := some "Message interface did not open properly",
               error_type := some "interface_not_loaded" }, f.2 ++ c.2 ++ t1.2 ++ t2.2)

/-- `MessageHandler._type_message` (with the realistic-typing helper):
focus the composer input and type the text character by character. -/
def type_message (bm : BM) (msg : String) : Res × List Ev :=
  match bm.driver with
  | none =>
    ({ success := false, error := some "Message typing error",
       error_type := some "typing_error" }, [])
  | some d =>
    let f := find_element_with_selectors d message_input_selectors
    match f.1 with
    | none =>
      ({ success := false, error := some "Could not find message input field",
         error_type := some "input_field_not_found" }, f.2)
    | some sel =>
      let c := smart_click_d d sel
      if !c.1.truthy then
        ({ success := false, error := some "Failed to click message input field",
           error_type := some "input_click_error" }, f.2 ++ c.2)
      else
        if d.page.typeOk sel then
          ({ success := true }, f.2 ++ c.2 ++ [Ev.typeText sel msg])
        else
          ({ success := false, error := some "Failed to type message",
             error_type := some "typing_error" }, f.2 ++ c.2)

/-- `MessageHandler._send_message`: click Send, then best-effort read the
composer input back to confirm it cleared. -/
def send_message_click (bm : BM) : Res × List Ev :=
  match bm.driver with
  | none =>
    ({ success := false, error := some "Message send error",
       error_type := some "send_error" }, [])
  | some d =>
    let f := find_element_with_selectors d msg_send_button_selectors
    match f.1 with
    | none =>
      ({ success := false, error := some "Could not find Send button",
         error_type := some "send_button_not_found" }, f.2)
    | some sel =>
      let c := smart_click_d d sel
      if !c.1.truthy then
        ({ success := false, error := some "Failed to click Send button",
           error_type := some "send_button_click_error" }, f.2 ++ c.2)
      else
        ({ success := true },
         f.2 ++ c.2 ++ [Ev.readText ⟨.cssSelector, "div[data-placeholder=\x27Write a message...\x27]"⟩])

/-- `MessageHandler.send_message`: capability check first, aborting with
`not_connected` when messaging is unavailable; then open the composer,
type and send. -/
def send_message (w : World) (bm : BM) (profile_url msg : String) : Res × BM × List Ev :=
  let c := can_send_message w bm profile_url
  if !c.1.success then (c.1, c.2.1, c.2.2)
  else if !(c.1.can_message.getD false) then
    ({ success := false, error := some "Cannot send message - not connected to this profile",
       error_type := some "not_connected", profile_url := some profile_url },
     c.2.1, c.2.2)
  else
    let bm1 := c.2.1
    let oi := open_message_interface bm1
    if !oi.1.success then (oi.1, bm1, c.2.2 ++ oi.2)
    else
      let tm := type_message bm1 msg
      if !tm.1.success then (tm.1, bm1, c.2.2 ++ oi.2 ++ tm.2)
      else
        let sm := send_message_click bm1
        if !sm.1.success then (sm.1, bm1, c.2.2 ++ oi.2 ++ tm.2 ++ sm.2)
        else
          ({ success := true, message := some "Message sent successfully",
             profile_url := some profile_url }, bm1, c.2.2 ++ oi.2 ++ tm.2 ++ sm.2)

/-- Response model of the `/close` endpoint. -/
structure CloseResp where
  success : Bool
  message : String
  session_id : Option String := none
  error : Option String := none
deriving DecidableEq

/-- The `/close` API endpoint (`close_session`): read the session id,
close the browser, and report success. -/
def close_session (bm : BM) : CloseResp × BM :=
  let sid := bm.session_id
  let bm1 := close_browser bm
  ({ success := true, message := "Session closed successfully", session_id := sid }, bm1)

/-- The operations of the system that act on the shared browser session. -/
inductive SysOp where
  | createBrowser (d : Driver) (sid : String)
  | navigate (u : String)
  | loginOp (username password : String)
  | logoutOp
  | closeBrowser
  | closeSessionOp
  | navigateProfile (u : String)
  | checkStatus (u : String)
  | sendConnect (u : String) (note : Option String)
  | canMessage (u : String)
  | sendMessageOp (u m : String)

/-- Effect of one system operation on the shared `BrowserManager` state. -/
def sysStep (w : World) (bm : BM) : SysOp → BM
  | .createBrowser d sid => create_stealth_browser bm d sid
  | .navigate u => (navigate_to w bm u).2.1
  | .loginOp u p => (login w bm u p).2.1
  | .logoutOp => (logout w bm).2.1
  | .closeBrowser => close_browser bm
  | .closeSessionOp => (close_session bm).2
  | .navigateProfile u => (navigate_to_profile w bm u).2.1
  | .checkStatus u => (check_connection_status w bm u).2.1
  | .sendConnect u note => (send_connection_request w bm u note).2.1
  | .canMessage u => (can_send_message w bm u).2.1
  | .sendMessageOp u m => (send_message w bm u m).2.1

/-- Browser-manager states reachable from the initial state. -/
inductive Reachable (w : World) : BM → Prop
  | init : Reachable w BM.init
  | step {bm : BM} (op : SysOp) : Reachable w bm → Reachable w (sysStep w bm op)

/-- Consistency of a session state: without a driver handle there is no
session id and the logged-in flag is down. -/
def BM.consistent (bm : BM) : Prop :=
  bm.driver = none → (bm.session_id = none ∧ bm.is_logged_in = false)

/-- A page on which exactly the given locators are present; clicks and
types succeed and every element reads back as the given text. -/
def pageOf (vis : List Locator) (txt : String) : Page :=
  { visible := fun l => vis.contains l,
    clickOk := fun _ => true,
    typeOk := fun _ => true,
    textOf := fun _ => txt }

/-- A world where every navigation succeeds and lands on one fixed page. -/
def worldOf (p : Page) : World :=
  { navOk := fun _ => true, pageAt := fun _ => p }

/-- Fixture: browser sitting on a challenge surface after submit. -/
def capDriver : Driver :=
  ⟨"https://www.linkedin.com/checkpoint/challenge/x",
   pageOf [⟨.cssSelector, ".challenge-page"⟩] "", true⟩

/-- Fixture: browser still on the login path but with the authenticated
navigation chrome present. -/
def navLoginDriver : Driver :=
  ⟨"https://www.linkedin.com/login", pageOf [⟨.cssSelector, "nav.global-nav"⟩] "", true⟩

/-- Fixture: a profile page whose Connected affordance (Message button)
is present together with a Follow affordance. -/
def connectedProfileDriver : Driver :=
  ⟨"https://www.linkedin.com/in/jane-doe/",
   pageOf [⟨.cssSelector, "button[aria-label*=\x27Message\x27]"⟩,
           ⟨.cssSelector, "button[aria-label*=\x27Follow\x27]"⟩] "", true⟩

/-- Fixture: a profile page with no affordances at all. -/
def emptyProfileDriver : Driver :=
  ⟨"https://www.linkedin.com/in/jane-doe/", pageOf [] "", true⟩

/-- Fixture: a profile page showing only the profile header region. -/
def plainProfileDriver : Driver :=
  ⟨"https://www.linkedin.com/in/jane-doe/", pageOf [⟨.cssSelector, ".pv-top-card"⟩] "", true⟩

/-- Fixture: a session state holding the given driver. -/
def bmWith (d : Driver) : BM :=
  { driver := some d, session_id := some "session_1", is_logged_in := false,
    current_url := d.url }

/-- Fixture: a world whose pages are all empty. -/
def emptyWorld : World := worldOf (pageOf [] "")

/-- Fixture: the profile URL used by the concrete scenarios. -/
def janeUrl : String := "https://www.linkedin.com/in/jane-doe/"

/-- Fixture: a login page carrying the credential fields, the submit
button and the authenticated navigation chrome. -/
def loginPage : Page :=
  pageOf [⟨.id, "username"⟩, ⟨.id, "password"⟩,
          ⟨.cssSelector, "button[type=\x27submit\x27]"⟩,
          ⟨.cssSelector, "nav.global-nav"⟩] ""

/-- Fixture: a world whose every page is the login fixture page. -/
def loginWorld : World := worldOf loginPage

/-- Fixture: a session state for the concrete login scenario. -/
def startBM : BM := bmWith emptyProfileDriver

/-- Fixture: a browser whose process dies before teardown, so that
`driver.quit()` raises. -/
def deadDriver : Driver := ⟨janeUrl, pageOf [] "", false⟩

/-- Fixture: the state right after creating the doomed browser. -/
def deadStartBM : BM := create_stealth_browser BM.init deadDriver "session_1"

/-- Fixture: the doomed-browser state after a successful login. -/
def deadLoggedBM : BM := (login loginWorld deadStartBM "user" "pass").2.1

/-- Fixture: a freshly created healthy browser session. -/
def openedBM : BM := create_stealth_browser BM.init emptyProfileDriver "session_1"

theorem noInteraction_append (a b : List Ev) :
    noInteraction (a ++ b) = (noInteraction a && noInteraction b) := by
  simp [noInteraction, List.all_append]

theorem noInteraction_find (d : Driver) (ls : List Locator) :
    noInteraction (find_element_with_selectors d ls).2 = true := by
  induction ls with
  | nil => simp [find_element_with_selectors, noInteraction]
  | cons l ls ih =>
    by_cases h : d.page.visible l = true
    · simp [find_element_with_selectors, h, noInteraction, Ev.isInteraction]
    · simp only [Bool.not_eq_true] at h
      simp only [find_element_with_selectors, h, Bool.false_eq_true, if_false]
      simp only [noInteraction, List.all_cons, Ev.isInteraction, Bool.not_false, Bool.true_and]
      exact ih

/-- C4: multi-candidate element resolution probes the candidates strictly
in declared order and returns the first present one; the probe trace stops
at the first success, so once a candidate succeeds no later candidate is
ever probed; when every candidate fails the result is the not-found value
`none`, not an error. -/
theorem find_element_first_match_wins (d : Driver) (ls : List Locator) :
    (find_element_with_selectors d ls).1 = ls.find? (fun l => d.page.visible l) ∧
    (find_element_with_selectors d ls).2 =
      (ls.takeWhile (fun l => !d.page.visible l)).map Ev.wait ++
        ((ls.find? (fun l => d.page.visible l)).toList.map Ev.wait) ∧
    ((∀ l ∈ ls, d.page.visible l = false) → (find_element_with_selectors d ls).1 = none) := by
  refine ⟨?_, ?_, ?_⟩
  · induction ls with
    | nil => simp [find_element_with_selectors]
    | cons l ls ih =>
      by_cases h : d.page.visible l = true
      · simp [find_element_with_selectors, h, List.find?_cons_of_pos]
      · simp only [Bool.not_eq_true] at h
        simp [find_element_with_selectors, h, List.find?_cons_of_neg, ih]
  · induction ls with
    | nil => simp [find_element_with_selectors]
    | cons l ls ih =>
      by_cases h : d.page.visible l = true
      · simp [find_element_with_selectors, h, List.find?_cons_of_pos,
              List.takeWhile_cons_of_neg]
      · simp only [Bool.not_eq_true] at h
        simp [find_element_with_selectors, h, List.find?_cons_of_neg,
              List.takeWhile_cons_of_pos, ih]
  · intro hall
    induction ls with
    | nil => simp [find_element_with_selectors]
    | cons l ls ih =>
      have hl := hall l (by simp)
      simp only [find_element_with_selectors, hl, Bool.false_eq_true, if_false]
      exact ih (fun x hx => hall x (List.mem_cons_of_mem _ hx))

theorem find_element_first_match_wins_witness :
    (∀ l ∈ email_input_selectors, emptyProfileDriver.page.visible l = false) ∧
    (find_element_with_selectors emptyProfileDriver email_input_selectors).1 = none :=
  ⟨by intro l hl; fin_cases hl <;> rfl,
   (find_element_first_match_wins emptyProfileDriver email_input_selectors).2.2
     (by intro l hl; fin_cases hl <;> rfl)⟩

/-- C1: the completed-login outcome evaluation is a fixed-priority
first-match-wins check: a resolvable challenge surface gives a failure of
kind captcha_challenge with requires_manual_action; otherwise a resolvable
inline error gives a failure of kind authentication_error carrying the
extracted text; otherwise a post-login path segment in the current URL
gives success; otherwise resolvable navigation chrome gives success;
otherwise a URL still on the login/challenge path gives a failure of kind
authentication_error; otherwise the result is success by default, and a
successful validation sets the logged-in flag of the session. -/
theorem validate_login_fixed_priority (d : Driver) :
    ((find_element_with_selectors d captcha_challenge_selectors).1.isSome = true →
      (validate_login d).1.success = false ∧
      (validate_login d).1.error_type = some "captcha_challenge" ∧
      (validate_login d).1.requires_manual_action = true) ∧
    (∀ esel, (find_element_with_selectors d captcha_challenge_selectors).1 = none →
      (find_element_with_selectors d error_messages_selectors).1 = some esel →
      (validate_login d).1.success = false ∧
      (validate_login d).1.error_type = some "authentication_error" ∧
      (validate_login d).1.error = some ("Login error: " ++ d.page.textOf esel)) ∧
    ((find_element_with_selectors d captcha_challenge_selectors).1 = none →
      (find_element_with_selectors d error_messages_selectors).1 = none →
      success_indicators.any (fun s => strContains d.url s) = true →
      (validate_login d).1.success = true) ∧
    ((find_element_with_selectors d captcha_challenge_selectors).1 = none →
      (find_element_with_selectors d error_messages_selectors).1 = none →
      success_indicators.any (fun s => strContains d.url s) = false →
      (find_element_with_selectors d nav_selectors).1.isSome = true →
      (validate_login d).1.success = true) ∧
    ((find_element_with_selectors d captcha_challenge_selectors).1 = none →
      (find_element_with_selectors d error_messages_selectors).1 = none →
      success_indicators.any (fun s => strContains d.url s) = false →
      (find_element_with_selectors d nav_selectors).1 = none →
      (strContains d.url "/login" || strContains d.url "/challenge") = true →
      (validate_login d).1.success = false ∧
      (validate_login d).1.error_type = some "authentication_error") ∧
    ((find_element_with_selectors d captcha_challenge_selectors).1 = none →
      (find_element_with_selectors d error_messages_selectors).1 = none →
      success_indicators.any (fun s => strContains d.url s) = false →
      (find_element_with_selectors d nav_selectors).1 = none →
      (strContains d.url "/login" || strContains d.url "/challenge") = false →
      (validate_login d).1.success = true) ∧
    (∀ w bm u p, (login w bm u p).1.success = true →
      (login w bm u p).2.1.is_logged_in = true) := by
  refine ⟨?_, ?_, ?_, ?_, ?_, ?_, ?_⟩
  · intro h
    obtain ⟨x, hx⟩ := Option.isSome_iff_exists.mp h
    simp [validate_login, hx]
  · intro esel hcap herr
    simp [validate_login, hcap, herr]
  · intro hcap herr hurl
    simp [validate_login, hcap, herr, hurl]
  · intro hcap herr hurl hnav
    obtain ⟨x, hx⟩ := Option.isSome_iff_exists.mp hnav
    simp [validate_login, hcap, herr, hurl, hx]
  · intro hcap herr hurl hnav hlogin
    simp [validate_login, hcap, herr, hurl, hnav, hlogin]
  · intro hcap herr hurl hnav hlogin
    simp [validate_login, hcap, herr, hurl, hnav, hlogin]
  · intro w bm u p h
    simp only [login] at h ⊢
    split at h
    · simp_all
    · split at h
      · simp_all
      · split at h
        · simp_all
        · simp_all

theorem validate_login_fixed_priority_witness :
    (find_element_with_selectors capDriver captcha_challenge_selectors).1.isSome = true ∧
    (validate_login capDriver).1.success = false ∧
    (validate_login capDriver).1.error_type = some "captcha_challenge" ∧
    (validate_login capDriver).1.requires_manual_action = true :=
  ⟨by rfl, (validate_login_fixed_priority capDriver).1 (by rfl)⟩

/-- C2 counterexample: with the browser still on the login path but with
the authenticated navigation chrome present (and no challenge surface or
inline error), the outcome evaluation returns success, so the
still-on-login negative check did not run before the positive checks. -/
theorem negative_before_positive_counterexample :
    strContains navLoginDriver.url "/login" = true ∧
    (find_element_with_selectors navLoginDriver captcha_challenge_selectors).1 = none ∧
    (find_element_with_selectors navLoginDriver error_messages_selectors).1 = none ∧
    (validate_login navLoginDriver).1.success = true := by
  refine ⟨by rfl, by rfl, by rfl, by rfl⟩

/-- C2 (amended): the challenge and inline-error hard negative checks are
evaluated before any positive check, but the still-on-login-path check is
evaluated only after the positive URL-indicator and navigation-chrome
checks, so a positive check can yield a success outcome while the current
location is still on the login/challenge path. -/
theorem negative_checks_split_priority (d : Driver) :
    ((find_element_with_selectors d captcha_challenge_selectors).1.isSome = true →
      (validate_login d).1.success = false) ∧
    ((find_element_with_selectors d captcha_challenge_selectors).1 = none →
      (find_element_with_selectors d error_messages_selectors).1.isSome = true →
      (validate_login d).1.success = false) ∧
    ((find_element_with_selectors d captcha_challenge_selectors).1 = none →
      (find_element_with_selectors d error_messages_selectors).1 = none →
      (success_indicators.any (fun s => strContains d.url s) = true ∨
        (find_element_with_selectors d nav_selectors).1.isSome = true) →
      (validate_login d).1.success = true) := by
  refine ⟨?_, ?_, ?_⟩
  · intro h
    obtain ⟨x, hx⟩ := Option.isSome_iff_exists.mp h
    simp [validate_login, hx]
  · intro hcap herr
    obtain ⟨x, hx⟩ := Option.isSome_iff_exists.mp herr
    simp [validate_login, hcap, hx]
  · intro hcap herr hpos
    rcases hpos with hurl | hnav
    · simp [validate_login, hcap, herr, hurl]
    · by_cases hurl : success_indicators.any (fun s => strContains d.url s) = true
      · simp [validate_login, hcap, herr, hurl]
      · obtain ⟨x, hx⟩ := Option.isSome_iff_exists.mp hnav
        simp only [Bool.not_eq_true] at hurl
        simp [validate_login, hcap, herr, hurl, hx]

theorem negative_checks_split_priority_witness :
    strContains navLoginDriver.url "/login" = true ∧
    (validate_login navLoginDriver).1.success = true :=
  ⟨by rfl,
   (negative_checks_split_priority navLoginDriver).2.2 (by rfl) (by rfl) (Or.inr (by rfl))⟩

/-- C3: when the connection-status check evaluates the page evidence, the
classification is a fixed-priority cascade: a resolvable Connected
affordance gives "connected" regardless of any other affordance; otherwise
a resolvable Pending affordance gives "pending"; otherwise a resolvable
Follow, direct Connect or overflow-menu Connect affordance gives
"not_connected"; otherwise the status is "unknown", and the status is
always returned inside a success result. -/
theorem check_status_fixed_priority (w : World) (bm : BM) (d : Driver) (profile_url : String)
    (hd : bm.driver = some d)
    (hon : strContains (get_current_url bm) profile_url = true) :
    (check_connection_status w bm profile_url).1.success = true ∧
    (check_connection_status w bm profile_url).1.connection_status =
      some (classify_connection_status d).1 ∧
    ((find_element_with_selectors d connected_selectors).1.isSome = true →
      (classify_connection_status d).1 = "connected") ∧
    ((find_element_with_selectors d connected_selectors).1.isSome = false →
      (find_element_with_selectors d pending_selectors).1.isSome = true →
      (classify_connection_status d).1 = "pending") ∧
    ((find_element_with_selectors d connected_selectors).1.isSome = false →
      (find_element_with_selectors d pending_selectors).1.isSome = false →
      ((find_element_with_selectors d follow_selectors).1.isSome = true ∨
        (find_element_with_selectors d primary_connect_selectors).1.isSome = true ∨
        (find_element_with_selectors d dropdown_connect_selectors).1.isSome = true) →
      (classify_connection_status d).1 = "not_connected") ∧
    ((find_element_with_selectors d connected_selectors).1.isSome = false →
      (find_element_with_selectors d pending_selectors).1.isSome = false →
      (find_element_with_selectors d follow_selectors).1.isSome = false →
      (find_element_with_selectors d primary_connect_selectors).1.isSome = false →
      (find_element_with_selectors d dropdown_connect_selectors).1.isSome = false →
      (classify_connection_status d).1 = "unknown") := by
  refine ⟨?_, ?_, ?_, ?_, ?_, ?_⟩
  · simp [check_connection_status, hon, evaluate_connection_status, hd]
  · simp [check_connection_status, hon, evaluate_connection_status, hd]
  · intro h1
    simp [classify_connection_status, h1]
  · intro h1 h2
    simp [classify_connection_status, h1, h2]
  · intro h1 h2 h3
    rcases h3 with h3 | h3 | h3 <;>
      simp [classify_connection_status, h1, h2, h3]
    · by_cases hf : (find_element_with_selectors d follow_selectors).1.isSome = true
      · simp [hf]
      · simp only [Bool.not_eq_true] at hf
        simp [hf]
    · by_cases hf : (find_element_with_selectors d follow_selectors).1.isSome = true
      · simp [hf]
      · simp only [Bool.not_eq_true] at hf
        by_cases hp : (find_element_with_selectors d primary_connect_selectors).1.isSome = true
        · simp [hf, hp]
        · simp only [Bool.not_eq_true] at hp
          simp [hf, hp]
  · intro h1 h2 h3 h4 h5
    simp [classify_connection_status, h1, h2, h3, h4, h5]

theorem check_status_fixed_priority_witness :
    (bmWith connectedProfileDriver).driver = some connectedProfileDriver ∧
    strContains (get_current_url (bmWith connectedProfileDriver)) janeUrl = true ∧
    (find_element_with_selectors connectedProfileDriver follow_selectors).1.isSome = true ∧
    (check_connection_status emptyWorld (bmWith connectedProfileDriver) janeUrl).1.success = true ∧
    (check_connection_status emptyWorld (bmWith connectedProfileDriver) janeUrl).1.connection_status =
      some "connected" := by
  have h := check_status_fixed_priority emptyWorld (bmWith connectedProfileDriver)
    connectedProfileDriver janeUrl rfl (by rfl)
  exact ⟨rfl, by rfl, by rfl, h.1, by rw [h.2.1, h.2.2.1 (by rfl)]⟩

theorem noInteraction_navigate_to (w : World) (bm : BM) (u : String) :
    noInteraction (navigate_to w bm u).2.2 = true := by
  rcases bm with ⟨dr, sid, lg, cu⟩
  rcases dr with _ | d
  · simp [navigate_to, noInteraction]
  · by_cases h : w.navOk u = true <;>
      simp [navigate_to, h, noInteraction, Ev.isInteraction]

theorem noInteraction_validate_profile_page (d : Driver) :
    noInteraction (validate_profile_page d).2 = true := by
  have h : (validate_profile_page d).2 = (find_element_with_selectors d profile_indicators).2 := by
    rcases hf : (find_element_with_selectors d profile_indicators).1 with _ | x
    · simp only [validate_profile_page, hf]
      split
      · rfl
      · split <;> rfl
    · simp [validate_profile_page, hf]
  rw [h]
  exact noInteraction_find d profile_indicators

theorem noInteraction_readText (l : Locator) : noInteraction [Ev.readText l] = true := rfl

theorem noInteraction_extract_profile_info (d : Driver) :
    noInteraction (extract_profile_info d).2 = true := by
  simp only [extract_profile_info]
  rcases hn : (find_element_with_selectors d name_selectors).1 with _ | x <;>
    rcases hh : (find_element_with_selectors d headline_selectors).1 with _ | y <;>
      simp only [hn, hh, noInteraction_append, Bool.and_eq_true] <;>
      simp only [noInteraction_find, noInteraction_readText, and_self]

theorem noInteraction_navigate_to_profile (w : World) (bm : BM) (u : String) :
    noInteraction (navigate_to_profile w bm u).2.2 = true := by
  simp only [navigate_to_profile]
  split
  · simp [noInteraction]
  · split
    · exact noInteraction_navigate_to w bm u
    · split
      · simp only [noInteraction_append, Bool.and_eq_true]
        refine ⟨noInteraction_navigate_to w bm u, ?_⟩
        simp only [validate_profile_page_bm]
        split
        · simp [noInteraction]
        · exact noInteraction_validate_profile_page _
      · simp only [noInteraction_append, Bool.and_eq_true]
        refine ⟨⟨noInteraction_navigate_to w bm u, ?_⟩, ?_⟩
        · simp only [validate_profile_page_bm]
          split
          · simp [noInteraction]
          · exact noInteraction_validate_profile_page _
        · simp only [extract_profile_info_bm]
          split
          · simp [noInteraction]
          · exact noInteraction_extract_profile_info _

theorem noInteraction_classify (d : Driver) :
    noInteraction (classify_connection_status d).2 = true := by
  simp only [classify_connection_status]
  split
  · exact noInteraction_find d connected_selectors
  · split
    · simp [noInteraction_append, noInteraction_find]
    · split
      · simp [noInteraction_append, noInteraction_find]
      · split
        · simp [noInteraction_append, noInteraction_find]
        · split <;> simp [noInteraction_append, noInteraction_find]

theorem noInteraction_evaluate_status (bm : BM) (u : String) :
    noInteraction (evaluate_connection_status bm u).2 = true := by
  simp only [evaluate_connection_status]
  split
  · simp [noInteraction]
  · exact noInteraction_classify _

theorem noInteraction_check_status (w : World) (bm : BM) (u : String) :
    noInteraction (check_connection_status w bm u).2.2 = true := by
  simp only [check_connection_status]
  split
  · exact noInteraction_evaluate_status bm u
  · split
    · exact noInteraction_navigate_to_profile w bm u
    · simp [noInteraction_append, noInteraction_navigate_to_profile,
            noInteraction_evaluate_status]

theorem validate_profile_page_no_status (bm : BM) :
    (validate_profile_page_bm bm).1.connection_status = none := by
  simp only [validate_profile_page_bm]
  split
  · rfl
  · simp only [validate_profile_page]
    split
    · rfl
    · split
      · rfl
      · split <;> rfl

theorem navigate_to_profile_no_status (w : World) (bm : BM) (u : String) :
    (navigate_to_profile w bm u).1.connection_status = none := by
  simp only [navigate_to_profile]
  split
  · rfl
  · split
    · rfl
    · split
      · exact validate_profile_page_no_status _
      · rfl

theorem check_status_none_of_fail (w : World) (bm : BM) (u : String) :
    (check_connection_status w bm u).1.success = true ∨
    (check_connection_status w bm u).1.connection_status = none := by
  simp only [check_connection_status]
  split
  · simp only [evaluate_connection_status]
    split
    · right; rfl
    · left; rfl
  · split
    · right; exact navigate_to_profile_no_status w bm u
    · simp only [evaluate_connection_status]
      split
      · right; rfl
      · left; rfl

theorem connect_dropdown_no_status (d : Driver) :
    (connect_dropdown_attempt d).1.connection_status = none := by
  simp only [connect_dropdown_attempt]
  split
  · rfl
  · split
    · rfl
    · split
      · rfl
      · split <;> rfl

theorem find_and_click_no_status (bm : BM) :
    (find_and_click_connect_button bm).1.connection_status = none := by
  simp only [find_and_click_connect_button]
  split
  · rfl
  · split
    · split
      · rfl
      · exact connect_dropdown_no_status _
    · exact connect_dropdown_no_status _

theorem confirm_no_status (bm : BM) :
    (confirm_connection_request bm).1.connection_status = none := by
  simp only [confirm_connection_request]
  split
  · rfl
  · split
    · rfl
    · split <;> rfl

theorem send_connection_core_short_circuit (w : World) (bm1 : BM) (u : String)
    (note : Option String) (tr0 : List Ev) (htr : noInteraction tr0 = true) :
    ((send_connection_core w bm1 u note tr0).1.connection_status = some "connected" →
      (send_connection_core w bm1 u note tr0).1.success = false ∧
      (send_connection_core w bm1 u note tr0).1.error_type = some "already_connected" ∧
      noInteraction (send_connection_core w bm1 u note tr0).2.2 = true) ∧
    ((send_connection_core w bm1 u note tr0).1.connection_status = some "pending" →
      (send_connection_core w bm1 u note tr0).1.success = false ∧
      (send_connection_core w bm1 u note tr0).1.error_type = some "request_pending" ∧
      noInteraction (send_connection_core w bm1 u note tr0).2.2 = true) := by
  by_cases hst : (check_connection_status w bm1 u).1.success = true
  · by_cases hc : (check_connection_status w bm1 u).1.connection_status.getD "" = "connected"
    · constructor
      · intro _
        refine ⟨?_, ?_, ?_⟩ <;>
          simp [send_connection_core, hst, hc, noInteraction_append, htr,
                noInteraction_check_status]
      · intro h
        simp [send_connection_core, hst, hc] at h
    · by_cases hp : (check_connection_status w bm1 u).1.connection_status.getD "" = "pending"
      · constructor
        · intro h
          simp [send_connection_core, hst, hc, hp] at h
        · intro _
          refine ⟨?_, ?_, ?_⟩ <;>
            simp [send_connection_core, hst, hc, hp, noInteraction_append, htr,
                  noInteraction_check_status]
      · have hnone : (send_connection_core w bm1 u note tr0).1.connection_status = none := by
          simp only [send_connection_core, hst, Bool.not_true, Bool.false_eq_true, if_false]
          rw [if_neg hc, if_neg hp]
          split
          · exact find_and_click_no_status _
          · split
            · exact confirm_no_status _
            · rfl
        constructor <;> intro h <;> rw [hnone] at h <;> simp at h
  · have hf : (check_connection_status w bm1 u).1.success = false := by
      simpa using hst
    have hnone : (send_connection_core w bm1 u note tr0).1.connection_status = none := by
      simp only [send_connection_core, hf, Bool.not_false, if_true]
      rcases check_status_none_of_fail w bm1 u with h | h
      · rw [h] at hf; cases hf
      · exact h
    constructor <;> intro h <;> rw [hnone] at h <;> simp at h

/-- C5: whenever the connect-request flow classifies the relationship as
already connected or pending, the operation short-circuits with a failure
of kind already_connected or request_pending respectively, and the whole
run issues no click and no type call on the driver. -/
theorem send_connection_request_short_circuit (w : World) (bm : BM) (u : String)
    (note : Option String) :
    ((send_connection_request w bm u note).1.connection_status = some "connected" →
      (send_connection_request w bm u note).1.success = false ∧
      (send_connection_request w bm u note).1.error_type = some "already_connected" ∧
      noInteraction (send_connection_request w bm u note).2.2 = true) ∧
    ((send_connection_request w bm u note).1.connection_status = some "pending" →
      (send_connection_request w bm u note).1.success = false ∧
      (send_connection_request w bm u note).1.error_type = some "request_pending" ∧
      noInteraction (send_connection_request w bm u note).2.2 = true) := by
  simp only [send_connection_request]
  split
  · exact send_connection_core_short_circuit w bm u note [] rfl
  · split
    · constructor <;> intro h <;>
        rw [navigate_to_profile_no_status w bm u] at h <;> simp at h
    · exact send_connection_core_short_circuit w _ u note _
        (noInteraction_navigate_to_profile w bm u)

theorem send_connection_request_short_circuit_witness :
    (send_connection_request emptyWorld (bmWith connectedProfileDriver) janeUrl
        none).1.connection_status = some "connected" ∧
    (send_connection_request emptyWorld (bmWith connectedProfileDriver) janeUrl
        none).1.success = false ∧
    (send_connection_request emptyWorld (bmWith connectedProfileDriver) janeUrl
        none).1.error_type = some "already_connected" ∧
    noInteraction (send_connection_request emptyWorld (bmWith connectedProfileDriver) janeUrl
        none).2.2 = true :=
  have h := (send_connection_request_short_circuit emptyWorld (bmWith connectedProfileDriver)
    janeUrl none).1 (by rfl)
  ⟨by rfl, h⟩

theorem noInteraction_can_evidence (bm : BM) (u : String) :
    noInteraction (can_send_message_evidence bm u).2 = true := by
  simp only [can_send_message_evidence]
  split
  · rfl
  · split <;> exact noInteraction_find _ _

theorem noInteraction_can_send_message (w : World) (bm : BM) (u : String) :
    noInteraction (can_send_message w bm u).2.2 = true := by
  simp only [can_send_message]
  split
  · exact noInteraction_can_evidence bm u
  · split
    · exact noInteraction_navigate_to w bm u
    · simp [noInteraction_append, noInteraction_navigate_to, noInteraction_can_evidence]

/-- C6: when the messaging-capability check succeeds but reports that
messaging is unavailable, send_message returns a failure of kind
not_connected and the whole run issues no click and no type call on the
driver, so no composer interaction happens. -/
theorem send_message_not_connected (w : World) (bm : BM) (u m : String)
    (h1 : (can_send_message w bm u).1.success = true)
    (h2 : (can_send_message w bm u).1.can_message = some false) :
    (send_message w bm u m).1.success = false ∧
    (send_message w bm u m).1.error_type = some "not_connected" ∧
    noInteraction (send_message w bm u m).2.2 = true := by
  refine ⟨?_, ?_, ?_⟩ <;>
    simp [send_message, h1, h2, noInteraction_can_send_message]

theorem send_message_not_connected_witness :
    (can_send_message emptyWorld (bmWith emptyProfileDriver) janeUrl).1.success = true ∧
    (can_send_message emptyWorld (bmWith emptyProfileDriver) janeUrl).1.can_message =
      some false ∧
    (send_message emptyWorld (bmWith emptyProfileDriver) janeUrl "Hello").1.error_type =
      some "not_connected" :=
  have h := send_message_not_connected emptyWorld (bmWith emptyProfileDriver) janeUrl "Hello"
    (by rfl) (by rfl)
  ⟨by rfl, by rfl, h.2.1⟩

/-- C7: at a concrete page where the target element is not present within
the timeout, smart_click and smart_type return the Python value None by
falling off the end of the function, not the boolean False their
documentation promises (no exception escapes in the model either way). -/
theorem smart_primitives_none_when_missing :
    (smart_click (bmWith emptyProfileDriver) ⟨.id, "username"⟩).1 = PyRet.noneVal ∧
    (smart_type (bmWith emptyProfileDriver) ⟨.id, "username"⟩ "user").1 = PyRet.noneVal ∧
    (smart_click (bmWith emptyProfileDriver) ⟨.id, "username"⟩).1 ≠ PyRet.boolVal false ∧
    (smart_type (bmWith emptyProfileDriver) ⟨.id, "username"⟩ "user").1 ≠ PyRet.boolVal false := by
  refine ⟨rfl, rfl, by decide, by decide⟩

theorem flag_navigate (w : World) (bm : BM) (u : String) :
    ((navigate_to w bm u).2.1).is_logged_in = bm.is_logged_in := by
  rcases bm with ⟨dr, sid, lg, cu⟩
  rcases dr with _ | d
  · rfl
  · by_cases hn : w.navOk u = true <;> simp [navigate_to, hn]

theorem flag_navigate_to_profile (w : World) (bm : BM) (u : String) :
    ((navigate_to_profile w bm u).2.1).is_logged_in = bm.is_logged_in := by
  simp only [navigate_to_profile]
  split
  · rfl
  · split
    · exact flag_navigate w bm u
    · split
      · exact flag_navigate w bm u
      · exact flag_navigate w bm u

theorem flag_check_status (w : World) (bm : BM) (u : String) :
    ((check_connection_status w bm u).2.1).is_logged_in = bm.is_logged_in := by
  simp only [check_connection_status]
  split
  · rfl
  · split
    · exact flag_navigate_to_profile w bm u
    · exact flag_navigate_to_profile w bm u

theorem flag_send_connection_core (w : World) (bm : BM) (u : String)
    (note : Option String) (tr0 : List Ev) :
    ((send_connection_core w bm u note tr0).2.1).is_logged_in = bm.is_logged_in := by
  simp only [send_connection_core]
  split
  · exact flag_check_status w bm u
  · split
    · exact flag_check_status w bm u
    · split
      · exact flag_check_status w bm u
      · split
        · exact flag_check_status w bm u
        · split
          · exact flag_check_status w bm u
          · exact flag_check_status w bm u

theorem flag_send_connection (w : World) (bm : BM) (u : String) (note : Option String) :
    ((send_connection_request w bm u note).2.1).is_logged_in = bm.is_logged_in := by
  simp only [send_connection_request]
  split
  · exact flag_send_connection_core w bm u note []
  · split
    · exact flag_navigate_to_profile w bm u
    · rw [flag_send_connection_core, flag_navigate_to_profile]

theorem flag_can_send_message (w : World) (bm : BM) (u : String) :
    ((can_send_message w bm u).2.1).is_logged_in = bm.is_logged_in := by
  simp only [can_send_message]
  split
  · rfl
  · split
    · exact flag_navigate w bm u
    · exact flag_navigate w bm u

theorem flag_send_message (w : World) (bm : BM) (u m : String) :
    ((send_message w bm u m).2.1).is_logged_in = bm.is_logged_in := by
  simp only [send_message]
  split
  · exact flag_can_send_message w bm u
  · split
    · exact flag_can_send_message w bm u
    · split
      · exact flag_can_send_message w bm u
      · split
        · exact flag_can_send_message w bm u
        · split
          · exact flag_can_send_message w bm u
          · exact flag_can_send_message w bm u

theorem login_flag_source (w : World) (bm : BM) (u p : String) :
    ((login w bm u p).2.1).is_logged_in = true →
    bm.is_logged_in = true ∨ (login w bm u p).1.success = true := by
  simp only [login]
  split
  · intro h
    rw [flag_navigate] at h
    exact Or.inl h
  · split
    · intro h
      rw [flag_navigate] at h
      exact Or.inl h
    · split
      · intro h
        rw [flag_navigate] at h
        exact Or.inl h
      · by_cases hv :
          (validate_login_bm (navigate_to w bm LINKEDIN_LOGIN_URL).2.1).1.success = true
        · intro _
          exact Or.inr hv
        · intro h
          simp only [hv, Bool.false_eq_true, if_false] at h
          rw [flag_navigate] at h
          exact Or.inl h

theorem consistent_navigate (w : World) (bm : BM) (u : String) (h : bm.consistent) :
    ((navigate_to w bm u).2.1).consistent := by
  rcases bm with ⟨dr, sid, lg, cu⟩
  rcases dr with _ | d
  · exact h
  · by_cases hn : w.navOk u = true
    · simp [navigate_to, hn, BM.consistent]
    · simp only [navigate_to, hn, Bool.false_eq_true, if_false]
      exact h

theorem consistent_navigate_to_profile (w : World) (bm : BM) (u : String)
    (h : bm.consistent) : ((navigate_to_profile w bm u).2.1).consistent := by
  simp only [navigate_to_profile]
  split
  · exact h
  · split
    · exact consistent_navigate w bm u h
    · split
      · exact consistent_navigate w bm u h
      · exact consistent_navigate w bm u h

theorem consistent_check_status (w : World) (bm : BM) (u : String)
    (h : bm.consistent) : ((check_connection_status w bm u).2.1).consistent := by
  simp only [check_connection_status]
  split
  · exact h
  · split
    · exact consistent_navigate_to_profile w bm u h
    · exact consistent_navigate_to_profile w bm u h

theorem consistent_send_connection_core (w : World) (bm : BM) (u : String)
    (note : Option String) (tr0 : List Ev) (h : bm.consistent) :
    ((send_connection_core w bm u note tr0).2.1).consistent := by
  simp only [send_connection_core]
  split
  · exact consistent_check_status w bm u h
  · split
    · exact consistent_check_status w bm u h
    · split
      · exact consistent_check_status w bm u h
      · split
        · exact consistent_check_status w bm u h
        · split
          · exact consistent_check_status w bm u h
          · exact consistent_check_status w bm u h

theorem consistent_send_connection (w : World) (bm : BM) (u : String)
    (note : Option String) (h : bm.consistent) :
    ((send_connection_request w bm u note).2.1).consistent := by
  simp only [send_connection_request]
  split
  · exact consistent_send_connection_core w bm u note [] h
  · split
    · exact consistent_navigate_to_profile w bm u h
    · exact consistent_send_connection_core w _ u note _
        (consistent_navigate_to_profile w bm u h)

theorem consistent_can_send_message (w : World) (bm : BM) (u : String)
    (h : bm.consistent) : ((can_send_message w bm u).2.1).consistent := by
  simp only [can_send_message]
  split
  · exact h
  · split
    · exact consistent_navigate w bm u h
    · exact consistent_navigate w bm u h

theorem consistent_send_message (w : World) (bm : BM) (u m : String)
    (h : bm.consistent) : ((send_message w bm u m).2.1).consistent := by
  simp only [send_message]
  split
  · exact consistent_can_send_message w bm u h
  · split
    · exact consistent_can_send_message w bm u h
    · split
      · exact consistent_can_send_message w bm u h
      · split
        · exact consistent_can_send_message w bm u h
        · split
          · exact consistent_can_send_message w bm u h
          · exact consistent_can_send_message w bm u h

theorem consistent_login (w : World) (bm : BM) (u p : String) (h : bm.consistent) :
    ((login w bm u p).2.1).consistent := by
  simp only [login]
  split
  · exact consistent_navigate w bm _ h
  · split
    · exact consistent_navigate w bm _ h
    · split
      · exact consistent_navigate w bm _ h
      · by_cases hv :
          (validate_login_bm (navigate_to w bm LINKEDIN_LOGIN_URL).2.1).1.success = true
        · simp only [hv, if_true]
          intro hd
          exfalso
          have hdn : (navigate_to w bm LINKEDIN_LOGIN_URL).2.1.driver = none := hd
          simp [validate_login_bm, hdn] at hv
        · simp only [hv, if_false]
          exact consistent_navigate w bm _ h

theorem consistent_logout (w : World) (bm : BM) (h : bm.consistent) :
    ((logout w bm).2.1).consistent := by
  simp only [logout]
  split
  · intro hd
    have hdn : (navigate_to w bm "https://www.linkedin.com/m/logout/").2.1.driver = none := hd
    exact ⟨(consistent_navigate w bm _ h hdn).1, rfl⟩
  · exact consistent_navigate w bm _ h

theorem close_browser_flag (bm : BM) :
    (close_browser bm).is_logged_in = true → bm.is_logged_in = true := by
  rcases bm with ⟨dr, sid, lg, cu⟩
  rcases dr with _ | d
  · exact id
  · by_cases hq : d.quitOk = true
    · simp [close_browser, hq]
    · simp only [Bool.not_eq_true] at hq
      simp [close_browser, hq]

theorem close_session_state (bm : BM) : (close_session bm).2 = close_browser bm := rfl

theorem consistent_close (bm : BM) (h : bm.consistent) : (close_browser bm).consistent := by
  rcases bm with ⟨dr, sid, lg, cu⟩
  rcases dr with _ | d
  · exact h
  · by_cases hq : d.quitOk = true
    · simp only [close_browser, hq, if_true]
      intro _
      exact ⟨rfl, rfl⟩
    · simp only [Bool.not_eq_true] at hq
      simp only [close_browser, hq, Bool.false_eq_true, if_false]
      intro hd
      cases hd

theorem consistent_of_reachable {w : World} {bm : BM} (h : Reachable w bm) :
    bm.consistent := by
  induction h with
  | init => intro _; exact ⟨rfl, rfl⟩
  | step op hr ih =>
    cases op with
    | createBrowser d sid => intro hd; cases hd
    | navigate u => exact consistent_navigate w _ u ih
    | loginOp u p => exact consistent_login w _ u p ih
    | logoutOp => exact consistent_logout w _ ih
    | closeBrowser => exact consistent_close _ ih
    | closeSessionOp => exact consistent_close _ ih
    | navigateProfile u => exact consistent_navigate_to_profile w _ u ih
    | checkStatus u => exact consistent_check_status w _ u ih
    | sendConnect u note => exact consistent_send_connection w _ u note ih
    | canMessage u => exact consistent_can_send_message w _ u ih
    | sendMessageOp u m => exact consistent_send_message w _ u m ih

/-- C8 counterexample: on a reachable session whose browser process dies
before teardown, the close endpoint still reports success but neither
releases the browser handle nor clears the session identifier, because
the source clears those fields only after `quit()` has succeeded. -/
theorem close_session_release_counterexample :
    Reachable loginWorld deadStartBM ∧
    (close_session deadStartBM).1.success = true ∧
    (close_session (close_session deadStartBM).2).1.success = true ∧
    (close_session deadStartBM).2.driver.isSome = true ∧
    (close_session deadStartBM).2.session_id = some "session_1" :=
  ⟨Reachable.step (SysOp.createBrowser deadDriver "session_1") Reachable.init,
   by rfl, by rfl, by rfl, by rfl⟩

/-- C8 (amended): closing the session twice in a row reports success both
times and never raises, on never-opened and already-closed sessions
included; when the driver teardown does not fault, the close releases the
browser handle and clears the session identifier and the logged-in flag,
and the second close changes nothing; on a never-opened or already-closed
session the close is a no-op on an already-cleared state; a teardown
fault leaves every field unchanged while still reporting success. -/
theorem close_session_idempotent (w : World) (bm : BM) (h : Reachable w bm) :
    (close_session bm).1.success = true ∧
    (close_session (close_session bm).2).1.success = true ∧
    (∀ d, bm.driver = some d → d.quitOk = true →
      (close_session bm).2.driver = none ∧
      (close_session bm).2.session_id = none ∧
      (close_session bm).2.is_logged_in = false ∧
      (close_session (close_session bm).2).2 = (close_session bm).2) ∧
    (bm.driver = none →
      (close_session bm).2 = bm ∧ bm.session_id = none ∧ bm.is_logged_in = false) ∧
    (∀ d, bm.driver = some d → d.quitOk = false → (close_session bm).2 = bm) := by
  have hc := consistent_of_reachable h
  rcases bm with ⟨dr, sid, lg, cu⟩
  refine ⟨rfl, rfl, ?_, ?_, ?_⟩
  · intro d hd hq
    have hd2 : dr = some d := hd
    subst hd2
    refine ⟨?_, ?_, ?_, ?_⟩ <;> simp [close_session, close_browser, hq]
  · intro hd
    have hd2 : dr = none := hd
    subst hd2
    obtain ⟨h1, h2⟩ := hc rfl
    have h1b : sid = none := h1
    have h2b : lg = false := h2
    subst h1b
    subst h2b
    exact ⟨rfl, rfl, rfl⟩
  · intro d hd hq
    have hd2 : dr = some d := hd
    subst hd2
    simp [close_session, close_browser, hq]

theorem close_session_idempotent_witness :
    openedBM.driver = some emptyProfileDriver ∧
    emptyProfileDriver.quitOk = true ∧
    (close_session openedBM).1.success = true ∧
    (close_session (close_session openedBM).2).1.success = true ∧
    (close_session openedBM).2.driver = none ∧
    (close_session openedBM).2.session_id = none ∧
    (close_session openedBM).2.is_logged_in = false :=
  have h := close_session_idempotent loginWorld openedBM
    (Reachable.step (SysOp.createBrowser emptyProfileDriver "session_1") Reachable.init)
  have h3 := h.2.2.1 emptyProfileDriver rfl rfl
  ⟨rfl, rfl, h.1, h.2.1, h3.1, h3.2.1, h3.2.2.1⟩

/-- C9 counterexample: a reachable logged-in session whose browser process
dies before teardown keeps its logged-in flag after both session-close
operations, because the source clears the flag only after a successful
`quit()`. -/
theorem logged_in_revert_counterexample :
    Reachable loginWorld deadLoggedBM ∧
    deadLoggedBM.is_logged_in = true ∧
    (sysStep loginWorld deadLoggedBM SysOp.closeBrowser).is_logged_in = true ∧
    (close_session deadLoggedBM).2.is_logged_in = true :=
  ⟨Reachable.step (SysOp.loginOp "user" "pass")
     (Reachable.step (SysOp.createBrowser deadDriver "session_1") Reachable.init),
   by rfl, by rfl, by rfl⟩

/-- C9 (amended): the logged-in flag starts false; a system operation can
raise it from false to true only when the operation is a login whose
validation returned success; and on any reachable state both session-close
operations leave the flag false whenever the driver teardown does not
fault (and on driverless states), while a teardown fault leaves the flag
unchanged. -/
theorem logged_in_flag_invariant :
    BM.init.is_logged_in = false ∧
    (∀ w bm op, (sysStep w bm op).is_logged_in = true →
      bm.is_logged_in = true ∨
        ∃ u p, op = SysOp.loginOp u p ∧ (login w bm u p).1.success = true) ∧
    (∀ w bm, Reachable w bm →
      (∀ d, bm.driver = some d → d.quitOk = true →
        (sysStep w bm SysOp.closeBrowser).is_logged_in = false ∧
        (sysStep w bm SysOp.closeSessionOp).is_logged_in = false) ∧
      (bm.driver = none →
        (sysStep w bm SysOp.closeBrowser).is_logged_in = false ∧
        (sysStep w bm SysOp.closeSessionOp).is_logged_in = false)) := by
  refine ⟨rfl, ?_, ?_⟩
  · intro w bm op h
    cases op with
    | createBrowser d sid => exact Or.inl h
    | navigate u =>
      rw [sysStep, flag_navigate] at h
      exact Or.inl h
    | loginOp u p =>
      rcases login_flag_source w bm u p h with h1 | h1
      · exact Or.inl h1
      · exact Or.inr ⟨u, p, rfl, h1⟩
    | logoutOp =>
      rw [sysStep] at h
      simp only [logout] at h
      rcases hn : (navigate_to w bm "https://www.linkedin.com/m/logout/").1 with _ | _
      · simp only [hn, Bool.false_eq_true, if_false] at h
        rw [flag_navigate] at h
        exact Or.inl h
      · simp only [hn, if_true] at h
        cases h
    | closeBrowser =>
      rw [sysStep] at h
      exact Or.inl (close_browser_flag bm h)
    | closeSessionOp =>
      rw [sysStep, close_session_state] at h
      exact Or.inl (close_browser_flag bm h)
    | navigateProfile u =>
      rw [sysStep, flag_navigate_to_profile] at h
      exact Or.inl h
    | checkStatus u =>
      rw [sysStep, flag_check_status] at h
      exact Or.inl h
    | sendConnect u note =>
      rw [sysStep, flag_send_connection] at h
      exact Or.inl h
    | canMessage u =>
      rw [sysStep, flag_can_send_message] at h
      exact Or.inl h
    | sendMessageOp u m =>
      rw [sysStep, flag_send_message] at h
      exact Or.inl h
  · intro w bm h
    have hc := consistent_of_reachable h
    constructor
    · intro d hd hq
      constructor
      · simp [sysStep, close_browser, hd, hq]
      · simp [sysStep, close_session, close_browser, hd, hq]
    · intro hd
      obtain ⟨h1, h2⟩ := hc hd
      constructor
      · simp [sysStep, close_browser, hd, h2]
      · simp [sysStep, close_session, close_browser, hd, h2]

theorem logged_in_flag_invariant_witness :
    (sysStep loginWorld startBM (SysOp.loginOp "user" "pass")).is_logged_in = true ∧
    (startBM.is_logged_in = true ∨
      ∃ u p, SysOp.loginOp "user" "pass" = SysOp.loginOp u p ∧
        (login loginWorld startBM u p).1.success = true) ∧
    openedBM.driver = some emptyProfileDriver ∧
    emptyProfileDriver.quitOk = true ∧
    (sysStep loginWorld openedBM SysOp.closeBrowser).is_logged_in = false :=
  ⟨by rfl,
   logged_in_flag_invariant.2.1 loginWorld startBM (SysOp.loginOp "user" "pass") (by rfl),
   rfl, rfl,
   ((logged_in_flag_invariant.2.2 loginWorld openedBM
       (Reachable.step (SysOp.createBrowser emptyProfileDriver "session_1")
         Reachable.init)).1 emptyProfileDriver rfl rfl).1⟩
theorem validate_profile_page_no_pinfo (bm : BM) :
    (validate_profile_page_bm bm).1.profile_info = none := by
  simp only [validate_profile_page_bm]
  split
  · rfl
  · simp only [validate_profile_page]
    split
    · rfl
    · split
      · rfl
      · split <;> rfl

theorem extract_bm_location (bm : BM) :
    (extract_profile_info_bm bm).1.location = "Unknown" := by
  simp only [extract_profile_info_bm]
  split
  · rfl
  · rfl

/-- C10: the profile snapshot never carries a location: extraction reads
only the name and the headline, so the location field of the snapshot
returned by a successful profile navigation is always the sentinel
"Unknown", whatever the page reports. -/
theorem profile_location_always_unknown :
    (∀ d, (extract_profile_info d).1.location = "Unknown") ∧
    (∀ w bm u pi, (navigate_to_profile w bm u).1.profile_info = some pi →
      pi.location = "Unknown") := by
  constructor
  · intro d
    rfl
  · intro w bm u pi h
    simp only [navigate_to_profile] at h
    split at h
    · cases h
    · split at h
      · cases h
      · split at h
        · rw [validate_profile_page_no_pinfo] at h
          cases h
        · have h2 := Option.some.inj h
          rw [← h2]
          exact extract_bm_location _

theorem profile_location_always_unknown_witness :
    (navigate_to_profile (worldOf plainProfileDriver.page) (bmWith emptyProfileDriver)
        janeUrl).1.profile_info = some ⟨"Unknown", "Unknown", "Unknown"⟩ ∧
    (⟨"Unknown", "Unknown", "Unknown"⟩ : ProfileInfo).location = "Unknown" :=
  ⟨by decide,
   profile_location_always_unknown.2 (worldOf plainProfileDriver.page)
     (bmWith emptyProfileDriver) janeUrl ⟨"Unknown", "Unknown", "Unknown"⟩ (by decide)⟩
